import Mathlib

/-!
Verification development for the DriftCoder SSH backend
(`src/src-tauri/src/ssh/*.rs`, `src/src-tauri/src/state.rs`,
`src/src-tauri/src/commands/connection.rs`).

Each Rust component the claims depend on is shallowly embedded as an
executable Lean definition; machine integers are modelled as `Nat`/`Int`
(no overflow is relevant at the sizes involved), fallible code returns
`Except`, and side-effecting collaborators (the network, the SFTP server,
wall-clock time) are passed in explicitly as oracles or parameters.
-/

namespace DriftCoder

/-- The `SshError` enum from `src/src-tauri/src/ssh/client.rs` (lines
168–227).  Payloads keep the source's fields, with `SocketAddr` modelled
as the index of the address in the resolved list, and `std::io::Error`
as its message string. -/
inductive SshError where
  | DnsLookupFailed (host : String) (port : Nat) (detail : String)
  | TcpConnectFailed (addr : Nat) (detail : String)
  | TcpConnectTimeout (addr : Nat)
  | HandshakeFailed (addr : Nat) (detail : String)
  | HandshakeJoinAborted (addr : Nat) (detail : Option String)
  | HostKeyUntrusted (host : String) (port : Nat) (keyType : String)
      (fingerprintSha256 : String) (publicKeyOpenssh : String)
  | HostKeyMismatch (host : String) (port : Nat) (keyType : String)
      (expectedFingerprintSha256 : String) (actualFingerprintSha256 : String)
      (expectedPublicKeyOpenssh : String) (actualPublicKeyOpenssh : String)
  | ConnectionFailed (detail : String)
  | AuthenticationFailed (detail : String)
  | SftpError (detail : String)
  | SftpTimeout
  | SftpSessionClosed
  | ChannelError (detail : String)
  | IoError (detail : String)
deriving DecidableEq, Repr

/-- `is_fatal_connection_error` from `src/src-tauri/src/ssh/actor.rs`
(lines 406–422), arm for arm. -/
def isFatalConnectionError : SshError → Bool
  | .DnsLookupFailed _ _ _ => true
  | .TcpConnectFailed _ _ => true
  | .TcpConnectTimeout _ => true
  | .HandshakeFailed _ _ => true
  | .HandshakeJoinAborted _ _ => true
  | .HostKeyUntrusted _ _ _ _ _ => true
  | .HostKeyMismatch _ _ _ _ _ _ _ => true
  | .ConnectionFailed _ => true
  | .AuthenticationFailed _ => true
  | .ChannelError _ => true
  | .SftpTimeout => false
  | .SftpSessionClosed => false
  | .SftpError _ => false
  | .IoError _ => true

/-! ## SFTP facade retry (`src/src-tauri/src/ssh/client.rs`)

Every public SFTP operation on `SshConnection` (`get_home_dir`,
`list_dir`, `read_file`, `read_file_with_stat`, `write_file`, `stat`,
`create_file`, `create_dir`, `delete`, `rename`) is the same wrapper
around its `_once` body:

```rust
match self.op_once(args).await {
    Ok(v) => Ok(v),
    Err(SshError::SftpTimeout | SshError::SftpSessionClosed) => {
        self.reset_sftp();
        self.op_once(args).await
    }
    Err(e) => Err(e),
}
```

and each `_once` body begins with `ensure_sftp`, which returns the cached
session if present and otherwise creates a fresh one.  We model the
cached handle as an `Option Nat` holding a session id, number fresh
sessions with a counter, and feed the result of each `_once` attempt
from an oracle indexed by attempt number (0 = first, 1 = retry). -/

/-- The discrimination made by the retry wrapper's second match arm:
`Err(SshError::SftpTimeout | SshError::SftpSessionClosed)`. -/
def isTransientSftp : SshError → Bool
  | .SftpTimeout => true
  | .SftpSessionClosed => true
  | _ => false

/-- The SFTP-session-holding part of `SshConnection`: `sftp:
Option<Arc<Mutex<SftpSession>>>`, with sessions identified by a
creation counter so that a recycled session is distinguishable from the
original. -/
structure ConnSftp where
  sftp : Option Nat
  nextId : Nat
deriving DecidableEq, Repr

/-- `SshConnection::ensure_sftp`: return the cached session if present,
otherwise create (and cache) a fresh one. -/
def ensureSftp (c : ConnSftp) : ConnSftp × Nat :=
  match c.sftp with
  | some s => (c, s)
  | none => ({ sftp := some c.nextId, nextId := c.nextId + 1 }, c.nextId)

/-- `SshConnection::reset_sftp`: `self.sftp = None`. -/
def resetSftp (c : ConnSftp) : ConnSftp :=
  { c with sftp := none }

/-- One `op_once` body: `ensure_sftp` then perform the wire operation,
whose outcome the oracle reports for this attempt index. -/
def sftpOpOnce (c : ConnSftp) (oracle : Nat → Except SshError α)
    (attempt : Nat) : ConnSftp × Except SshError α :=
  let (c', _) := ensureSftp c
  (c', oracle attempt)

/-- Trace of one facade call: final connection state, returned result,
number of `_once` attempts performed, and number of `reset_sftp` calls. -/
structure FacadeRun (α : Type) where
  conn : ConnSftp
  result : Except SshError α
  attempts : Nat
  resets : Nat
deriving Repr

/-- The retry wrapper shared by all ten public SFTP operations of
`SshConnection` (e.g. `read_file`, client.rs lines 914–923). -/
def sftpOpWithRetry (c : ConnSftp) (oracle : Nat → Except SshError α) :
    FacadeRun α :=
  let (c₀, r₀) := sftpOpOnce c oracle 0
  match r₀ with
  | .ok v => ⟨c₀, .ok v, 1, 0⟩
  | .error e =>
    if isTransientSftp e then
      let c₁ := resetSftp c₀
      let (c₂, r₁) := sftpOpOnce c₁ oracle 1
      ⟨c₂, r₁, 2, 1⟩
    else ⟨c₀, .error e, 1, 0⟩

/-! ## Session registry (`src/src-tauri/src/state.rs`) -/

/-- The registry-relevant part of `PtySession`
(`src/src-tauri/src/ssh/pty.rs`): the connection it belongs to.  (The
command mailbox is modelled separately for the PTY claims.) -/
structure PtySessionRef where
  connectionId : String
deriving DecidableEq, Repr

/-- `AppState` from `src/src-tauri/src/state.rs`: active connections
keyed by connection id and PTY sessions keyed by terminal id.  The two
`HashMap`s are modelled as key-unique association lists; insertion
replaces an existing binding exactly as `HashMap::insert` does. -/
structure AppState where
  connections : List (String × Unit)
  terminals : List (String × PtySessionRef)
deriving DecidableEq, Repr

/-- `HashMap::insert`-style update for an association list. -/
def assocInsert (k : String) (v : α) (l : List (String × α)) :
    List (String × α) :=
  (k, v) :: l.filter (fun p => p.1 ≠ k)

/-- `HashMap::remove`-style deletion for an association list. -/
def assocRemove (k : String) (l : List (String × α)) : List (String × α) :=
  l.filter (fun p => p.1 ≠ k)

/-- `AppState::new`. -/
def AppState.empty : AppState := ⟨[], []⟩

/-- `AppState::add_connection`. -/
def AppState.addConnection (s : AppState) (id : String) : AppState :=
  { s with connections := assocInsert id () s.connections }

/-- `AppState::remove_connection` (state.rs lines 36–38): removes the
connection entry only; the `terminals` map is not touched. -/
def AppState.removeConnection (s : AppState) (id : String) : AppState :=
  { s with connections := assocRemove id s.connections }

/-- `AppState::add_terminal`. -/
def AppState.addTerminal (s : AppState) (id : String) (t : PtySessionRef) :
    AppState :=
  { s with terminals := assocInsert id t s.terminals }

/-- `AppState::remove_terminal`. -/
def AppState.removeTerminal (s : AppState) (id : String) : AppState :=
  { s with terminals := assocRemove id s.terminals }

/-- `AppState::take_terminals_for_connection` (state.rs lines 57–77):
collect the keys of all terminals whose `connection_id` matches, remove
each, and return the removed sessions. -/
def AppState.takeTerminalsForConnection (s : AppState) (connId : String) :
    AppState × List PtySessionRef :=
  let removed := (s.terminals.filter (fun p => p.2.connectionId = connId)).map (·.2)
  let rest := s.terminals.filter (fun p => ¬ p.2.connectionId = connId)
  ({ s with terminals := rest }, removed)

/-- A registry operation, for stating "for every sequence of registry
operations". -/
inductive RegistryOp where
  | addConnection (id : String)
  | removeConnection (id : String)
  | addTerminal (id : String) (t : PtySessionRef)
  | removeTerminal (id : String)
  | takeTerminalsForConnection (connId : String)
deriving DecidableEq, Repr

/-- Apply one registry operation. -/
def AppState.applyOp (s : AppState) : RegistryOp → AppState
  | .addConnection id => s.addConnection id
  | .removeConnection id => s.removeConnection id
  | .addTerminal id t => s.addTerminal id t
  | .removeTerminal id => s.removeTerminal id
  | .takeTerminalsForConnection c => (s.takeTerminalsForConnection c).1

/-- Run a sequence of registry operations from a state. -/
def AppState.runOps (s : AppState) (ops : List RegistryOp) : AppState :=
  ops.foldl AppState.applyOp s

/-! ## SFTP result records (`src/src-tauri/src/ssh/sftp.rs` via client.rs) -/

/-- `SftpEntry` (`src/src-tauri/src/ssh/sftp.rs`): `{name, isDirectory,
size: u64, mtime: i64, permissions: Option<String>}`. -/
structure SftpEntry where
  name : String
  isDirectory : Bool
  size : Nat
  mtime : Int
  permissions : Option String
deriving DecidableEq, Repr

/-- `SftpStat`: `{size: u64, mtime: i64}`. -/
structure SftpStat where
  size : Nat
  mtime : Int
deriving DecidableEq, Repr

/-- The file attributes returned by the SFTP server for one entry, as
exposed by `russh_sftp`'s `Metadata`: every field optional.  `mtime` is
a `u32` on the wire, `permissions` a `u32` bit pattern. -/
structure RawMetadata where
  size : Option Nat
  mtime : Option Nat
  permissions : Option Nat
deriving DecidableEq, Repr

/-- One raw directory entry as returned by `sftp.read_dir`. -/
structure RawDirEntry where
  fileName : String
  isDir : Bool
  metadata : RawMetadata
deriving DecidableEq, Repr

/-- Rust's `format!("{:o}", p)`: octal rendering of a `u32`. -/
def octalString (n : Nat) : String :=
  String.mk (Nat.toDigits 8 n)

/-- The `SftpEntry` built from one raw entry inside
`SshConnection::list_dir_once` (client.rs lines 896–911):
`size: metadata.size.unwrap_or(0)`,
`mtime: metadata.mtime.map(|t| t as i64).unwrap_or(0)`,
`permissions: metadata.permissions.map(|p| format!("{:o}", p))`. -/
def entryFromRaw (e : RawDirEntry) : SftpEntry :=
  { name := e.fileName
    isDirectory := e.isDir
    size := e.metadata.size.getD 0
    mtime := (e.metadata.mtime.map (fun t => (t : Int))).getD 0
    permissions := e.metadata.permissions.map octalString }

/-- The conversion loop of `list_dir_once`: once `read_dir` has
succeeded with `entries`, every entry is converted and the whole result
is `Ok`. -/
def listDirConvert (entries : List RawDirEntry) :
    Except SshError (List SftpEntry) :=
  .ok (entries.map entryFromRaw)

/-- The `SftpStat` built by `SshConnection::stat_once` (client.rs lines
982–995) from the server's metadata. -/
def statFromRaw (md : RawMetadata) : Except SshError SftpStat :=
  .ok { size := md.size.getD 0
        mtime := (md.mtime.map (fun t => (t : Int))).getD 0 }

/-! ## Directory cache and path normalization
(`src/src-tauri/src/ssh/actor.rs`, lines 424–509) -/

/-- Rust's `str::trim_end_matches('/')` on the character list: drop
every trailing `'/'`. -/
def dropTrailingSlashes (l : List Char) : List Char :=
  (l.reverse.dropWhile (· = '/')).reverse

/-- Rust's `str::split('/')` on the character list: split at every
`'/'`, keeping empty pieces (`"".split('/')` yields one empty piece). -/
def splitSlash : List Char → List (List Char)
  | [] => [[]]
  | c :: cs =>
    let r := splitSlash cs
    if c = '/' then [] :: r
    else
      match r with
      | h :: t => (c :: h) :: t
      | [] => [[c]]

/-- `normalize_dir_path` (actor.rs lines 490–495): the root path stays
`"/"`; otherwise trailing `'/'` characters are stripped
(`trim_end_matches('/')`). -/
def normalizeDirPath (path : String) : String :=
  if path = "/" then "/"
  else ⟨dropTrailingSlashes path.data⟩

/-- `parent_dir` (actor.rs lines 497–509): normalize, split on `'/'`,
drop empty components, pop the last component
(`format!("/{}", parts.join("/"))`); the root has no parent. -/
def parentDir (path : String) : Option String :=
  let normalized := normalizeDirPath path
  if normalized = "/" then none
  else
    let parts := (splitSlash normalized.data).filter (fun p => ¬ p = [])
    let parts := parts.dropLast
    if parts = [] then some "/"
    else some ⟨'/' :: (parts.intersperse ['/']).flatten⟩

/-- `DirectoryCache` (actor.rs lines 424–428): TTL, capacity, and a map
from normalized directory path to `(created_at, entries)`.  The
`HashMap` is a key-unique association list; `Instant` is a `Nat` on a
monotonic clock. -/
structure DirectoryCache where
  ttl : Nat
  maxEntries : Nat
  entries : List (String × Nat × List SftpEntry)
deriving DecidableEq, Repr

/-- `DIR_CACHE_TTL = Duration::from_secs(10)` (in seconds). -/
def DIR_CACHE_TTL : Nat := 10

/-- `DIR_CACHE_MAX_ENTRIES = 128`. -/
def DIR_CACHE_MAX_ENTRIES : Nat := 128

/-- `DirectoryCache::new`. -/
def DirectoryCache.mk' (ttl maxEntries : Nat) : DirectoryCache :=
  ⟨ttl, maxEntries, []⟩

/-- `DirectoryCache::get` (actor.rs lines 439–451): a hit iff the entry
is present and `now.duration_since(created_at) <= ttl`; an expired entry
is removed.  `now` is the value of `Instant::now()` at the call (the
monotonic clock guarantees `now ≥ created_at`). -/
def DirectoryCache.get (c : DirectoryCache) (path : String) (now : Nat) :
    Option (List SftpEntry) × DirectoryCache :=
  match c.entries.lookup path with
  | some (createdAt, entries) =>
    if now - createdAt ≤ c.ttl then (some entries, c)
    else (none, { c with entries := assocRemove path c.entries })
  | none => (none, c)

/-- One pass of the `evict_if_needed` while-loop body: remove the entry
with the minimal `created_at` (first such in iteration order). -/
def evictOldest (l : List (String × Nat × List SftpEntry)) :
    List (String × Nat × List SftpEntry) :=
  match l.argmin (fun p => p.2.1) with
  | some oldest => assocRemove oldest.1 l
  | none => l

/-- `DirectoryCache::evict_if_needed` (actor.rs lines 474–488): evict
oldest-first while over capacity.  The loop removes one entry per
iteration, so `l.length` steps of fuel always suffice. -/
def evictIfNeeded (maxEntries : Nat) :
    Nat → List (String × Nat × List SftpEntry) →
    List (String × Nat × List SftpEntry)
  | 0, l => l
  | fuel + 1, l =>
    if l.length > maxEntries then evictIfNeeded maxEntries fuel (evictOldest l)
    else l

/-- `DirectoryCache::put` (actor.rs lines 453–456): insert with the
current instant, then evict while over capacity. -/
def DirectoryCache.put (c : DirectoryCache) (path : String)
    (entries : List SftpEntry) (now : Nat) : DirectoryCache :=
  let inserted := assocInsert path (now, entries) c.entries
  { c with entries := evictIfNeeded c.maxEntries inserted.length inserted }

/-- `DirectoryCache::invalidate`. -/
def DirectoryCache.invalidate (c : DirectoryCache) (path : String) :
    DirectoryCache :=
  { c with entries := assocRemove path c.entries }

/-- `DirectoryCache::invalidate_parent_of_path` (actor.rs lines
462–466). -/
def DirectoryCache.invalidateParentOfPath (c : DirectoryCache)
    (path : String) : DirectoryCache :=
  match parentDir path with
  | some parent => c.invalidate parent
  | none => c

/-- `DirectoryCache::invalidate_path_and_parent` (actor.rs lines
468–472). -/
def DirectoryCache.invalidatePathAndParent (c : DirectoryCache)
    (path : String) : DirectoryCache :=
  (c.invalidate (normalizeDirPath path)).invalidateParentOfPath path

/-! ## Connection actor (`src/src-tauri/src/ssh/actor.rs`, lines 86–404)

One iteration of the actor's request loop is embedded as a pure
function.  The timeout-wrapped connection call for each operation is an
oracle: either the timeout expired (`timedOut`, upon which the actor
resets the SFTP session and produces `SftpTimeout`) or the call
completed with some result.  `now` is `Instant::now()` for this
iteration. -/

/-- The `ConnectionRequest` enum (actor.rs lines 15–65), reply channels
elided. -/
inductive ConnectionRequest where
  | GetHomeDir
  | ListDir (path : String)
  | ReadFileWithStat (path : String)
  | ReadFile (path : String)
  | WriteFile (path : String) (content : String)
  | Stat (path : String)
  | CreateFile (path : String)
  | CreateDir (path : String)
  | Delete (path : String)
  | Rename (oldPath : String) (newPath : String)
  | CreatePty (terminalId : String) (workingDir : Option String)
  | Disconnect
deriving DecidableEq, Repr

/-- The value sent back on a request's one-shot reply channel. -/
inductive Reply where
  | homeDir (path : String)
  | entries (es : List SftpEntry)
  | fileContent (s : String)
  | fileWithStat (s : String) (st : SftpStat)
  | statR (st : SftpStat)
  | unit
  | pty (terminalId : String)
deriving DecidableEq, Repr

/-- Outcome of `tokio::time::timeout(dur, fut)` around one connection
call. -/
inductive OpOutcome (α : Type) where
  | timedOut
  | completed (r : Except SshError α)
deriving Repr

/-- `match tokio::time::timeout(..).await { Ok(r) => r, Err(_) => {
connection.reset_sftp(); Err(SshError::SftpTimeout) } }` — the shape
shared by every SFTP-backed branch of the actor loop. -/
def resolveOutcome (conn : ConnSftp) : OpOutcome α → ConnSftp × Except SshError α
  | .timedOut => (resetSftp conn, .error .SftpTimeout)
  | .completed r => (conn, r)

/-- Results of the underlying connection calls for one loop iteration,
one per request kind.  `disconnectDetail` is the error detail of
`connection.disconnect()` when it fails (the source maps that failure to
`SshError::ConnectionFailed`). -/
structure ActorOracles where
  getHomeDir : OpOutcome String
  listDir : OpOutcome (List SftpEntry)
  readFileWithStat : OpOutcome (String × SftpStat)
  readFile : OpOutcome String
  writeFile : OpOutcome Unit
  stat : OpOutcome SftpStat
  createFile : OpOutcome Unit
  createDir : OpOutcome Unit
  delete : OpOutcome Unit
  rename : OpOutcome Unit
  createPty : OpOutcome Unit
  disconnectDetail : Option String

/-- The recorded `disconnect_reason` (a `String` in the source —
`"User requested disconnect"` or `e.to_string()`; we keep the error
value instead of its rendering). -/
inductive DisconnectReason where
  | userRequested
  | fatalError (e : SshError)
deriving DecidableEq, Repr

/-- Observable effects of one actor loop iteration. -/
structure ActorStep where
  conn : ConnSftp
  cache : DirectoryCache
  reply : Except SshError Reply
  disconnectReason : Option DisconnectReason
  exits : Bool
  sftpCalls : Nat
deriving Repr

/-- `if is_fatal_connection_error(e) { disconnect_reason = Some(..) }` —
the error inspection after each non-Disconnect operation. -/
def reasonOfResult : Except SshError α → Option DisconnectReason
  | .ok _ => none
  | .error e =>
    if isFatalConnectionError e then some (.fatalError e) else none

/-- One iteration of the actor request loop
(`spawn_connection_actor`, actor.rs lines 148–382), branch for branch.
`exits` is whether control leaves the loop after replying (the explicit
`break` of the Disconnect branch, or the
`if disconnect_reason.is_some() { break }` after the match; the ListDir
cache-hit branch `continue`s past that check). -/
def handleRequest (conn : ConnSftp) (cache : DirectoryCache) (now : Nat)
    (req : ConnectionRequest) (o : ActorOracles) : ActorStep :=
  match req with
  | .GetHomeDir =>
    let (conn', r) := resolveOutcome conn o.getHomeDir
    let reason := reasonOfResult r
    ⟨conn', cache, r.map .homeDir, reason, reason.isSome, 1⟩
  | .ListDir path =>
    let cacheKey := normalizeDirPath path
    match cache.get cacheKey now with
    | (some cached, cache') =>
      ⟨conn, cache', .ok (.entries cached), none, false, 0⟩
    | (none, cache') =>
      let (conn', r) := resolveOutcome conn o.listDir
      let reason := reasonOfResult r
      let cache'' := match r with
        | .ok entries => cache'.put cacheKey entries now
        | .error _ => cache'
      ⟨conn', cache'', r.map .entries, reason, reason.isSome, 1⟩
  | .ReadFileWithStat _ =>
    let (conn', r) := resolveOutcome conn o.readFileWithStat
    let reason := reasonOfResult r
    ⟨conn', cache, r.map (fun p => .fileWithStat p.1 p.2), reason, reason.isSome, 1⟩
  | .ReadFile _ =>
    let (conn', r) := resolveOutcome conn o.readFile
    let reason := reasonOfResult r
    ⟨conn', cache, r.map .fileContent, reason, reason.isSome, 1⟩
  | .WriteFile path _ =>
    let (conn', r) := resolveOutcome conn o.writeFile
    let reason := reasonOfResult r
    let cache' := match r with
      | .ok _ => cache.invalidateParentOfPath path
      | .error _ => cache
    ⟨conn', cache', r.map (fun _ => .unit), reason, reason.isSome, 1⟩
  | .Stat _ =>
    let (conn', r) := resolveOutcome conn o.stat
    let reason := reasonOfResult r
    ⟨conn', cache, r.map .statR, reason, reason.isSome, 1⟩
  | .CreateFile path =>
    let (conn', r) := resolveOutcome conn o.createFile
    let reason := reasonOfResult r
    let cache' := match r with
      | .ok _ => cache.invalidateParentOfPath path
      | .error _ => cache
    ⟨conn', cache', r.map (fun _ => .unit), reason, reason.isSome, 1⟩
  | .CreateDir path =>
    let (conn', r) := resolveOutcome conn o.createDir
    let reason := reasonOfResult r
    let cache' := match r with
      | .ok _ => cache.invalidateParentOfPath path
      | .error _ => cache
    ⟨conn', cache', r.map (fun _ => .unit), reason, reason.isSome, 1⟩
  | .Delete path =>
    let (conn', r) := resolveOutcome conn o.delete
    let reason := reasonOfResult r
    let cache' := match r with
      | .ok _ => cache.invalidatePathAndParent path
      | .error _ => cache
    ⟨conn', cache', r.map (fun _ => .unit), reason, reason.isSome, 1⟩
  | .Rename oldPath newPath =>
    let (conn', r) := resolveOutcome conn o.rename
    let reason := reasonOfResult r
    let cache' := match r with
      | .ok _ => (cache.invalidateParentOfPath oldPath).invalidateParentOfPath newPath
      | .error _ => cache
    ⟨conn', cache', r.map (fun _ => .unit), reason, reason.isSome, 1⟩
  | .CreatePty terminalId _ =>
    -- PTY timeout maps to ChannelError without resetting the SFTP session.
    let r : Except SshError Unit := match o.createPty with
      | .timedOut => .error (.ChannelError "PTY request timed out")
      | .completed r => r
    let reason := reasonOfResult r
    ⟨conn, cache, r.map (fun _ => .pty terminalId), reason, reason.isSome, 0⟩
  | .Disconnect =>
    -- `connection.disconnect()` resets the SFTP session and maps any
    -- transport error to `ConnectionFailed`; the branch then records
    -- the reason and breaks unconditionally.
    let r : Except SshError Reply := match o.disconnectDetail with
      | none => .ok .unit
      | some d => .error (.ConnectionFailed d)
    ⟨resetSftp conn, cache, r, some .userRequested, true, 0⟩

/-! ## Transport bring-up (`src/src-tauri/src/ssh/client.rs`, lines 336–799)

`SshConnection::connect` resolves addresses, sorts IPv4-first, then for
each address in order runs an inner loop of up to 2 handshake attempts
(the second attempt only after a `russh::Error::Join` on the first).
We embed the two loops up to the point where a transport handle is
obtained (authentication follows on success and is not part of these
loops).  The combined outcome of one attempt (TCP connect + handshake)
at a given `(address index, attempt index)` is given by an oracle `f`;
`attempts` records every `(address, attempt)` iteration actually run. -/

/-- The observable outcome of one TCP-connect-plus-handshake attempt. -/
inductive AttemptOutcome where
  | tcpFailed (detail : String)
  | tcpTimeout
  | handshakeOk
  | hostKeyStoreError (detail : String)
  | hostKeyUntrusted (keyType : String) (fingerprintSha256 : String)
      (publicKeyOpenssh : String)
  | hostKeyMismatch (keyType : String) (expectedFp : String) (actualFp : String)
      (expectedPk : String) (actualPk : String)
  | joinError (detail : String)
  | handshakeError (detail : String)
deriving DecidableEq, Repr

/-- The `SshError` recorded into `last_error` for a failing attempt at
address index `addr` (client.rs lines 465–724); `none` for a successful
handshake. -/
def attemptError (host : String) (port : Nat) (addr : Nat) :
    AttemptOutcome → Option SshError
  | .handshakeOk => none
  | .tcpFailed d => some (.TcpConnectFailed addr d)
  | .tcpTimeout => some (.TcpConnectTimeout addr)
  | .hostKeyStoreError d => some (.ConnectionFailed d)
  | .hostKeyUntrusted kt fp pk => some (.HostKeyUntrusted host port kt fp pk)
  | .hostKeyMismatch kt efp afp epk apk =>
      some (.HostKeyMismatch host port kt efp afp epk apk)
  | .joinError d => some (.HandshakeJoinAborted addr (some d))
  | .handshakeError d => some (.HandshakeFailed addr d)

/-- Result of the inner `for attempt in 0..2` loop at one address. -/
structure InnerResult where
  success : Bool
  lastError : Option SshError
  attempts : List (Nat × Nat)
deriving DecidableEq, Repr

/-- The inner attempt loop (client.rs lines 418–725): attempt 0 always
runs; every outcome except `joinError` ends the loop (`break`, or
success), while `joinError` records `HandshakeJoinAborted` and
`continue`s into attempt 1, after which the range is exhausted. -/
def innerLoop (f : Nat → Nat → AttemptOutcome) (host : String) (port : Nat)
    (addr : Nat) (lastError : Option SshError) : InnerResult :=
  match f addr 0 with
  | .handshakeOk => ⟨true, lastError, [(addr, 0)]⟩
  | .joinError d =>
    match f addr 1 with
    | .handshakeOk =>
      ⟨true, some (.HandshakeJoinAborted addr (some d)), [(addr, 0), (addr, 1)]⟩
    | o1 => ⟨false, attemptError host port addr o1, [(addr, 0), (addr, 1)]⟩
  | o0 => ⟨false, attemptError host port addr o0, [(addr, 0)]⟩

/-- The outer per-address loop (client.rs lines 407–730): addresses in
order, stopping at the first address whose inner loop produced a
handle (`if handle.is_some() { break; }`). -/
def outerLoop (f : Nat → Nat → AttemptOutcome) (host : String) (port : Nat) :
    List Nat → Option SshError → Bool × Option SshError × List (Nat × Nat)
  | [], le => (false, le, [])
  | addr :: rest, le =>
    let r := innerLoop f host port addr le
    if r.success then (true, r.lastError, r.attempts)
    else
      let (s, le', atts) := outerLoop f host port rest r.lastError
      (s, le', r.attempts ++ atts)

/-- Decidable equality for `Except` results, used to evaluate concrete
runs of the embedded functions. -/
instance {ε α : Type} [DecidableEq ε] [DecidableEq α] :
    DecidableEq (Except ε α) := fun a b =>
  match a, b with
  | .ok x, .ok y =>
    if h : x = y then .isTrue (by rw [h]) else .isFalse (by intro hc; cases hc; exact h rfl)
  | .error x, .error y =>
    if h : x = y then .isTrue (by rw [h]) else .isFalse (by intro hc; cases hc; exact h rfl)
  | .ok _, .error _ => .isFalse (by intro hc; cases hc)
  | .error _, .ok _ => .isFalse (by intro hc; cases hc)

/-- Final outcome of the handshake phase of `SshConnection::connect`. -/
structure ConnectResult where
  result : Except SshError Unit
  attempts : List (Nat × Nat)
deriving DecidableEq, Repr

/-- The handshake phase of `SshConnection::connect` over `numAddrs`
resolved addresses (indices in traversal order after the IPv4-first
sort): the empty resolution is `ConnectionFailed` before the loop
(client.rs lines 381–387); otherwise the loops run and, with no handle,
the final error is `last_error` (falling back to a generic
`ConnectionFailed`, client.rs lines 732–737). -/
def sshConnect (f : Nat → Nat → AttemptOutcome) (host : String) (port : Nat)
    (numAddrs : Nat) : ConnectResult :=
  if numAddrs = 0 then
    ⟨.error (.ConnectionFailed
      ("DNS lookup returned no addresses for " ++ host ++ ":" ++ toString port)), []⟩
  else
    let (success, le, atts) := outerLoop f host port (List.range numAddrs) none
    if success then ⟨.ok (), atts⟩
    else ⟨.error (le.getD (.ConnectionFailed "Failed to establish SSH connection")), atts⟩

/-- Whether an attempt outcome is one of the two host-key failures, and
the `SshError` it produces. -/
def hostKeyError (host : String) (port : Nat) : AttemptOutcome → Option SshError
  | .hostKeyUntrusted kt fp pk => some (.HostKeyUntrusted host port kt fp pk)
  | .hostKeyMismatch kt efp afp epk apk =>
      some (.HostKeyMismatch host port kt efp afp epk apk)
  | _ => none

/-! ## Address ordering (`src/src-tauri/src/ssh/client.rs`, lines 398–402)

`resolved.sort_by_key(|a| match a { V4 => 0, V6 => 1 })`.  Rust's
`sort_by_key` is a stable sort; we embed it as `List.mergeSort` with
the induced total order on keys. -/

/-- A resolved socket address, carrying only its family and an opaque
rendering. -/
inductive ResolvedAddr where
  | V4 (a : String)
  | V6 (a : String)
deriving DecidableEq, Repr

/-- The sort key: `SocketAddr::V4 => 0, SocketAddr::V6 => 1`. -/
def addrSortKey : ResolvedAddr → Nat
  | .V4 _ => 0
  | .V6 _ => 1

/-- `matches!(a, SocketAddr::V4(_))`. -/
def ResolvedAddr.isV4 : ResolvedAddr → Bool
  | .V4 _ => true
  | .V6 _ => false

/-- The `resolved.sort_by_key(...)` call: a stable sort by
`addrSortKey`. -/
def sortResolvedAddrs (l : List ResolvedAddr) : List ResolvedAddr :=
  l.mergeSort (fun a b => addrSortKey a ≤ addrSortKey b)

/-! ## Host-key trust store (`src/src-tauri/src/ssh/known_hosts.rs`) and
`ssh_trust_host_key` (`src/src-tauri/src/commands/connection.rs`, lines
467–503)

The public-key parser (`ssh_key::PublicKey::from_openssh`) and the
SHA-256 fingerprint (`fingerprint(HashAlg::Sha256)`) are external
cryptographic functions; they enter the embedding as parameters
(`parse` over an abstract key type `K`, and `fingerprint : K → String`).
Disk persistence is modelled as the in-memory map (a save that fails
surfaces `hostkey_store_failed` without affecting the invariant). -/

/-- `KnownHostEntry` (known_hosts.rs lines 9–18). -/
structure KnownHostEntry where
  host : String
  port : Nat
  keyType : String
  fingerprintSha256 : String
  publicKeyOpenssh : String
  trustedAt : Nat
deriving DecidableEq, Repr

/-- `key(host, port)` (known_hosts.rs lines 35–37):
`format!("{}:{}", host.trim(), port)`. -/
def knownHostsKey (host : String) (port : Nat) : String :=
  host.trim ++ ":" ++ toString port

/-- `upsert` (known_hosts.rs lines 84–106): insert the entry under
`key(host, port)` with `trusted_at = now_ms()`, then save. -/
def knownHostsUpsert (entries : List (String × KnownHostEntry))
    (host : String) (port : Nat) (keyType fingerprintSha256 publicKeyOpenssh : String)
    (now : Nat) : List (String × KnownHostEntry) :=
  assocInsert (knownHostsKey host port)
    { host := host.trim, port, keyType, fingerprintSha256, publicKeyOpenssh,
      trustedAt := now }
    entries

/-- `TrustHostKeyRequest` (connection.rs lines 445–453). -/
structure TrustHostKeyRequest where
  host : String
  port : Nat
  keyType : String
  fingerprintSha256 : String
  publicKeyOpenssh : String
deriving DecidableEq, Repr

/-- The `IpcError` codes `ssh_trust_host_key` can produce. -/
inductive TrustHostKeyError where
  | invalidPublicKey
  | fingerprintMismatch
deriving DecidableEq, Repr

/-- `ssh_trust_host_key` (connection.rs lines 467–503): parse the
supplied OpenSSH public key (`invalid_public_key` on failure), compute
its SHA-256 fingerprint, reject with `hostkey_fingerprint_mismatch` —
before any write — when it differs from the supplied fingerprint, and
otherwise upsert the entry. -/
def sshTrustHostKey {K : Type} (parse : String → Option K)
    (fingerprint : K → String) (entries : List (String × KnownHostEntry))
    (req : TrustHostKeyRequest) (now : Nat) :
    Except TrustHostKeyError (List (String × KnownHostEntry)) :=
  match parse req.publicKeyOpenssh with
  | none => .error .invalidPublicKey
  | some k =>
    let computed := fingerprint k
    if computed ≠ req.fingerprintSha256 then .error .fingerprintMismatch
    else .ok (knownHostsUpsert entries req.host req.port req.keyType
      req.fingerprintSha256 req.publicKeyOpenssh now)

/-! ## PTY command handles (`src/src-tauri/src/ssh/pty.rs`, lines 147–169)

`PtySession::write`, `resize` and `close` all go through
`cmd_tx.send(..)` on the bounded command mailbox owned by the pump
task.  Once the pump task has terminated, the receiver is dropped and
every send fails; the mailbox state is modelled by a single
`mailboxClosed` flag. -/

/-- `PtyCommand` (pty.rs lines 35–39). -/
inductive PtyCommand where
  | Write (data : List Nat)
  | Resize (cols : Nat) (rows : Nat)
  | Close
deriving DecidableEq, Repr

/-- `PtyError` (pty.rs lines 13–19). -/
inductive PtyError where
  | ChannelError (detail : String)
  | IoError (detail : String)
deriving DecidableEq, Repr

/-- `cmd_tx.send(cmd).await`: fails (with tokio's send-error message)
exactly when the receiver half is gone. -/
def mpscSend (mailboxClosed : Bool) (_cmd : PtyCommand) : Except String Unit :=
  if mailboxClosed then .error "channel closed" else .ok ()

/-- `PtySession::write` (pty.rs lines 148–154): a failed send maps to
`PtyError::ChannelError`. -/
def ptyWrite (mailboxClosed : Bool) (data : List Nat) : Except PtyError Unit :=
  match mpscSend mailboxClosed (.Write data) with
  | .ok _ => .ok ()
  | .error e => .error (.ChannelError e)

/-- `PtySession::resize` (pty.rs lines 157–163): a failed send maps to
`PtyError::ChannelError`. -/
def ptyResize (mailboxClosed : Bool) (cols rows : Nat) : Except PtyError Unit :=
  match mpscSend mailboxClosed (.Resize cols rows) with
  | .ok _ => .ok ()
  | .error e => .error (.ChannelError e)

/-- `PtySession::close` (pty.rs lines 166–169): the send result is
discarded (`let _ = ...`) and the method returns `Ok(())`. -/
def ptyClose (mailboxClosed : Bool) : Except PtyError Unit :=
  let _ := mpscSend mailboxClosed .Close
  .ok ()

/-! ## Helper lemmas -/

theorem lookup_cons' {α : Type} (q hk : String) (hv : α) (tl : List (String × α)) :
    ((hk, hv) :: tl).lookup q = if q = hk then some hv else tl.lookup q := by
  rw [List.lookup_cons]
  by_cases h : q = hk
  · subst h
    simp
  · have hb : (q == hk) = false := beq_eq_false_iff_ne.mpr h
    simp [hb, h]

theorem lookup_assocRemove {α : Type} (k q : String) (l : List (String × α)) :
    (assocRemove k l).lookup q = if q = k then none else l.lookup q := by
  induction l with
  | nil => simp [assocRemove]
  | cons hd tl ih =>
    obtain ⟨hk, hv⟩ := hd
    by_cases h1 : hk = k
    · subst h1
      have hrem : assocRemove hk ((hk, hv) :: tl) = assocRemove hk tl := by
        simp [assocRemove, List.filter]
      rw [hrem, ih, lookup_cons']
      by_cases h2 : q = hk <;> simp [h2]
    · have hrem : assocRemove k ((hk, hv) :: tl) = (hk, hv) :: assocRemove k tl := by
        simp [assocRemove, List.filter, h1]
      rw [hrem, lookup_cons', lookup_cons']
      by_cases h2 : q = hk
      · subst h2
        simp [h1]
      · simp [h2, ih]

theorem except_map_error_iff {α β ε : Type} (f : α → β) (r : Except ε α) (e : ε) :
    r.map f = .error e ↔ r = .error e := by
  cases r <;> simp [Except.map]

theorem reasonOfResult_isSome_iff {α : Type} (r : Except SshError α) :
    (reasonOfResult r).isSome = true ↔
      ∃ e, r = .error e ∧ isFatalConnectionError e = true := by
  cases r with
  | ok v => simp [reasonOfResult]
  | error e =>
    by_cases hf : isFatalConnectionError e = true <;> simp_all [reasonOfResult]

theorem DirectoryCache.invalidate_lookup (c : DirectoryCache) (path q : String) :
    (c.invalidate path).entries.lookup q =
      if q = path then none else c.entries.lookup q := by
  simp [DirectoryCache.invalidate, lookup_assocRemove]

theorem DirectoryCache.invalidateParentOfPath_lookup (c : DirectoryCache)
    (path q : String) :
    (c.invalidateParentOfPath path).entries.lookup q =
      if parentDir path = some q then none else c.entries.lookup q := by
  unfold DirectoryCache.invalidateParentOfPath
  cases hp : parentDir path with
  | none => simp
  | some parent =>
    rw [DirectoryCache.invalidate_lookup]
    by_cases hq : q = parent
    · subst hq
      simp
    · have hne : ¬ (some parent = some q) := by
        intro h
        exact hq (Option.some.injEq parent q ▸ h).symm
      simp [hq, hne]

theorem DirectoryCache.invalidatePathAndParent_lookup (c : DirectoryCache)
    (path q : String) :
    (c.invalidatePathAndParent path).entries.lookup q =
      if parentDir path = some q ∨ q = normalizeDirPath path then none
      else c.entries.lookup q := by
  unfold DirectoryCache.invalidatePathAndParent
  rw [DirectoryCache.invalidateParentOfPath_lookup, DirectoryCache.invalidate_lookup]
  by_cases h1 : parentDir path = some q <;> by_cases h2 : q = normalizeDirPath path <;>
    simp [h1, h2]

/-! ## Claim theorems -/

/-- C10: `PtySession::close` returns `Ok(())` for every state of the
pump task — including after the pump task has terminated and the
command mailbox is closed, since the send failure is discarded —
whereas `PtySession::write` and `PtySession::resize` return a
`ChannelError` when the command mailbox is closed. -/
theorem pty_close_always_ok_write_resize_channel_error
    (mailboxClosed : Bool) (data : List Nat) (cols rows : Nat) :
    ptyClose mailboxClosed = .ok () ∧
    ptyWrite true data = .error (.ChannelError "channel closed") ∧
    ptyResize true cols rows = .error (.ChannelError "channel closed") := by
  refine ⟨rfl, ?_, ?_⟩ <;> rfl

/-- C9: when the server's metadata omits `size` or `mtime`, the
`SftpEntry` / `SftpStat` built by `list_dir_once` and `stat_once`
report 0 for the missing field, `permissions` is absent exactly when
the server omits it, and the conversions are total — neither operation
fails merely because metadata fields are missing. -/
theorem missing_metadata_defaults (e : RawDirEntry) (md : RawMetadata)
    (raws : List RawDirEntry) :
    (e.metadata.size = none → (entryFromRaw e).size = 0) ∧
    (e.metadata.mtime = none → (entryFromRaw e).mtime = 0) ∧
    (e.metadata.permissions = none → (entryFromRaw e).permissions = none) ∧
    (md.size = none → md.mtime = none →
      statFromRaw md = .ok { size := 0, mtime := 0 }) ∧
    listDirConvert raws = .ok (raws.map entryFromRaw) ∧
    (∃ st, statFromRaw md = .ok st) := by
  refine ⟨?_, ?_, ?_, ?_, rfl, ⟨_, rfl⟩⟩
  · intro h
    simp [entryFromRaw, h]
  · intro h
    simp [entryFromRaw, h]
  · intro h
    simp [entryFromRaw, h]
  · intro hs hm
    simp [statFromRaw, hs, hm]

/-- Witness for `missing_metadata_defaults` at a concrete entry whose
metadata omits every field. -/
theorem missing_metadata_defaults_witness :
    (entryFromRaw ⟨"f", false, ⟨none, none, none⟩⟩).size = 0 ∧
    (entryFromRaw ⟨"f", false, ⟨none, none, none⟩⟩).mtime = 0 ∧
    (entryFromRaw ⟨"f", false, ⟨none, none, none⟩⟩).permissions = none ∧
    statFromRaw ⟨none, none, none⟩ = .ok { size := 0, mtime := 0 } := by
  obtain ⟨h1, h2, h3, h4, -, -⟩ :=
    missing_metadata_defaults ⟨"f", false, ⟨none, none, none⟩⟩ ⟨none, none, none⟩ []
  exact ⟨h1 rfl, h2 rfl, h3 rfl, h4 rfl rfl⟩

/-- C3: the SFTP facade wrapper shared by all ten operations.  If the
first attempt fails with `SftpTimeout` or `SftpSessionClosed`, the
facade resets the cached session handle (one reset) and retries exactly
once (two attempts), returning the second attempt's result; if the
first attempt fails with any other error, that error is returned with
no retry and no reset; a first-attempt success is returned directly. -/
theorem sftp_facade_retry_policy {α : Type} (c : ConnSftp)
    (oracle : Nat → Except SshError α) :
    (∀ e, oracle 0 = .error e → isTransientSftp e = true →
      (sftpOpWithRetry c oracle).result = oracle 1 ∧
      (sftpOpWithRetry c oracle).attempts = 2 ∧
      (sftpOpWithRetry c oracle).resets = 1) ∧
    (∀ e, oracle 0 = .error e → isTransientSftp e = false →
      (sftpOpWithRetry c oracle).result = .error e ∧
      (sftpOpWithRetry c oracle).attempts = 1 ∧
      (sftpOpWithRetry c oracle).resets = 0) ∧
    (∀ v, oracle 0 = .ok v →
      (sftpOpWithRetry c oracle).result = .ok v ∧
      (sftpOpWithRetry c oracle).attempts = 1 ∧
      (sftpOpWithRetry c oracle).resets = 0) := by
  refine ⟨?_, ?_, ?_⟩
  · intro e h ht
    simp [sftpOpWithRetry, sftpOpOnce, h, ht]
  · intro e h ht
    simp [sftpOpWithRetry, sftpOpOnce, h, ht]
  · intro v h
    simp [sftpOpWithRetry, sftpOpOnce, h]

/-- Witness for `sftp_facade_retry_policy`: a first attempt failing
with `SftpTimeout` and a retry that succeeds. -/
theorem sftp_facade_retry_policy_witness :
    (sftpOpWithRetry ⟨none, 0⟩
      (fun k => if k = 0 then .error .SftpTimeout else .ok "home")).result =
        .ok "home" ∧
    (sftpOpWithRetry ⟨none, 0⟩
      (fun k => if k = 0 then .error .SftpTimeout else .ok "home")).resets = 1 := by
  obtain ⟨h1, -, h3⟩ :=
    (sftp_facade_retry_policy ⟨none, 0⟩
      (fun k => if k = 0 then .error .SftpTimeout else .ok "home")).1
      .SftpTimeout rfl rfl
  exact ⟨h1, h3⟩

/-- C2, counterexample: `AppState::remove_connection` removes only the
connection entry and does not touch the terminals map, so after
`add_connection "c"; add_terminal "t" (conn "c"); remove_connection "c"`
the PTY session `"t"` remains in the registry while its `connectionId`
`"c"` is absent from the connections map — refuting the claim that
removing a connection also removes its PTY sessions. -/
theorem remove_connection_leaves_terminals_cex :
    ((AppState.empty.runOps
      [.addConnection "c", .addTerminal "t" ⟨"c"⟩, .removeConnection "c"]).terminals.lookup
        "t" = some ⟨"c"⟩) ∧
    ((AppState.empty.runOps
      [.addConnection "c", .addTerminal "t" ⟨"c"⟩, .removeConnection "c"]).connections.lookup
        "c" = none) := by
  constructor <;> rfl

/-- C2, amended: `remove_connection` alone never removes PTY sessions;
it is `take_terminals_for_connection` (which the disconnect and
reconnect flows pair with it) that removes exactly the PTY sessions
whose `connectionId` matches, after which no session for that
connection remains in the registry. -/
theorem take_terminals_removes_connection_terminals
    (s : AppState) (connId tid : String) (t : PtySessionRef)
    (h : (tid, t) ∈ (s.takeTerminalsForConnection connId).1.terminals) :
    t.connectionId ≠ connId ∧
    (s.removeConnection connId).terminals = s.terminals ∧
    (s.takeTerminalsForConnection connId).2 =
      (s.terminals.filter (fun p => p.2.connectionId = connId)).map Prod.snd := by
  refine ⟨?_, rfl, rfl⟩
  have hm : (tid, t) ∈ s.terminals.filter
      (fun p => ¬ p.2.connectionId = connId) := h
  simpa using (List.mem_filter.mp hm).2

/-- Witness for `take_terminals_removes_connection_terminals`: a
registry with one terminal for `"c"` and one for `"d"`; taking the
terminals of `"c"` leaves the `"d"` terminal behind. -/
theorem take_terminals_removes_connection_terminals_witness :
    (PtySessionRef.mk "d").connectionId ≠ "c" ∧
    ((AppState.mk [("c", ())] [("t1", ⟨"c"⟩), ("t2", ⟨"d"⟩)]).removeConnection
      "c").terminals = [("t1", ⟨"c"⟩), ("t2", ⟨"d"⟩)] ∧
    ((AppState.mk [("c", ())]
      [("t1", ⟨"c"⟩), ("t2", ⟨"d"⟩)]).takeTerminalsForConnection "c").2 = [⟨"c"⟩] := by
  have h := take_terminals_removes_connection_terminals
    (AppState.mk [("c", ())] [("t1", ⟨"c"⟩), ("t2", ⟨"d"⟩)]) "c" "t2" ⟨"d"⟩
    (by decide)
  exact ⟨h.1, h.2.1, by decide⟩

/-- C5: every entry written through `ssh_trust_host_key` satisfies
`fingerprintSha256 = SHA-256(publicKeyOpenSSH)` at write time — the
stored fingerprint is the fingerprint the program computes from parsing
the stored public-key text — and a request whose supplied fingerprint
differs from the computed one is rejected with
`hostkey_fingerprint_mismatch` before any write (the store value is not
produced at all).  The parser and SHA-256 fingerprint are abstract
parameters (`parse`, `fingerprint`), as they are external cryptographic
code. -/
theorem trust_host_key_fingerprint_invariant {K : Type}
    (parse : String → Option K) (fingerprint : K → String)
    (entries : List (String × KnownHostEntry)) (req : TrustHostKeyRequest)
    (now : Nat) :
    (∀ entries', sshTrustHostKey parse fingerprint entries req now = .ok entries' →
      ∃ e, entries'.lookup (knownHostsKey req.host req.port) = some e ∧
        e.fingerprintSha256 = req.fingerprintSha256 ∧
        e.publicKeyOpenssh = req.publicKeyOpenssh ∧
        ∃ k, parse e.publicKeyOpenssh = some k ∧
          fingerprint k = e.fingerprintSha256) ∧
    (∀ k, parse req.publicKeyOpenssh = some k →
      fingerprint k ≠ req.fingerprintSha256 →
      sshTrustHostKey parse fingerprint entries req now =
        .error .fingerprintMismatch) := by
  constructor
  · intro entries' hok
    unfold sshTrustHostKey at hok
    split at hok
    · cases hok
    next k hp =>
      dsimp only at hok
      split at hok
      · cases hok
      next hfp =>
        injection hok with h
        subst h
        push_neg at hfp
        refine ⟨⟨req.host.trim, req.port, req.keyType, req.fingerprintSha256,
          req.publicKeyOpenssh, now⟩, ?_, rfl, rfl, k, hp, hfp⟩
        simp [knownHostsUpsert, assocInsert, lookup_cons']
  · intro k hp hfp
    unfold sshTrustHostKey
    rw [hp]
    simp [hfp]

/-- Witness for `trust_host_key_fingerprint_invariant` at a concrete
store, request, parser and fingerprint function (both branches:
a matching request is stored with the invariant, a mismatching request
is rejected). -/
theorem trust_host_key_fingerprint_invariant_witness :
    (∃ e, (knownHostsUpsert [] "h" 22 "ssh-ed25519" "FP:pk" "pk"
        7).lookup (knownHostsKey "h" 22) = some e ∧
      e.fingerprintSha256 = "FP:pk" ∧ e.publicKeyOpenssh = "pk") ∧
    sshTrustHostKey (fun s => some s) (fun s => "FP:" ++ s) []
      ⟨"h", 22, "ssh-ed25519", "WRONG", "pk"⟩ 7 = .error .fingerprintMismatch := by
  constructor
  · obtain ⟨e, he, hf, hpk, -⟩ :=
      (trust_host_key_fingerprint_invariant (fun s => some s)
        (fun s => "FP:" ++ s) [] ⟨"h", 22, "ssh-ed25519", "FP:pk", "pk"⟩ 7).1
        (knownHostsUpsert [] "h" 22 "ssh-ed25519" "FP:pk" "pk" 7) rfl
    exact ⟨e, he, hf, hpk⟩
  · exact (trust_host_key_fingerprint_invariant (fun s => some s)
      (fun s => "FP:" ++ s) [] ⟨"h", 22, "ssh-ed25519", "WRONG", "pk"⟩ 7).2
      "pk" rfl (by decide)

theorem branch_exit_iff {α : Type} (r : Except SshError α) (f : α → Reply) :
    ((reasonOfResult r).isSome = true ↔
      ∃ e, r.map f = .error e ∧ isFatalConnectionError e = true) := by
  cases r with
  | ok v => simp [reasonOfResult, Except.map]
  | error e =>
    by_cases hf : isFatalConnectionError e = true <;>
      simp [reasonOfResult, hf, Except.map]

/-- C4: one actor loop iteration records a disconnect reason and exits
the request loop after replying if and only if the request was
`Disconnect` or the request's result is an error that
`is_fatal_connection_error` classifies as fatal; `SftpTimeout`,
`SftpSessionClosed` and `SftpError` are not fatal, so they never
terminate the actor. -/
theorem actor_exit_classification (conn : ConnSftp) (cache : DirectoryCache)
    (now : Nat) (req : ConnectionRequest) (o : ActorOracles) :
    ((handleRequest conn cache now req o).exits = true ↔
      req = .Disconnect ∨
      ∃ e, (handleRequest conn cache now req o).reply = .error e ∧
        isFatalConnectionError e = true) ∧
    ((handleRequest conn cache now req o).exits =
      (handleRequest conn cache now req o).disconnectReason.isSome) ∧
    isFatalConnectionError .SftpTimeout = false ∧
    isFatalConnectionError .SftpSessionClosed = false ∧
    (∀ d, isFatalConnectionError (.SftpError d) = false) := by
  refine ⟨?_, ?_, rfl, rfl, fun d => rfl⟩
  · cases req with
    | GetHomeDir =>
      rcases hr : resolveOutcome conn o.getHomeDir with ⟨conn', r⟩
      simp [handleRequest, hr, branch_exit_iff r Reply.homeDir]
    | ListDir path =>
      rcases hc : DirectoryCache.get cache (normalizeDirPath path) now with ⟨hit, cc⟩
      cases hit with
      | some cached => simp [handleRequest, hc]
      | none =>
        rcases hr : resolveOutcome conn o.listDir with ⟨conn', r⟩
        simp [handleRequest, hc, hr, branch_exit_iff r Reply.entries]
    | ReadFileWithStat path =>
      rcases hr : resolveOutcome conn o.readFileWithStat with ⟨conn', r⟩
      simp [handleRequest, hr,
        branch_exit_iff r (fun p => Reply.fileWithStat p.1 p.2)]
    | ReadFile path =>
      rcases hr : resolveOutcome conn o.readFile with ⟨conn', r⟩
      simp [handleRequest, hr, branch_exit_iff r Reply.fileContent]
    | WriteFile path content =>
      rcases hr : resolveOutcome conn o.writeFile with ⟨conn', r⟩
      simp [handleRequest, hr, branch_exit_iff r (fun _ => Reply.unit)]
    | Stat path =>
      rcases hr : resolveOutcome conn o.stat with ⟨conn', r⟩
      simp [handleRequest, hr, branch_exit_iff r Reply.statR]
    | CreateFile path =>
      rcases hr : resolveOutcome conn o.createFile with ⟨conn', r⟩
      simp [handleRequest, hr, branch_exit_iff r (fun _ => Reply.unit)]
    | CreateDir path =>
      rcases hr : resolveOutcome conn o.createDir with ⟨conn', r⟩
      simp [handleRequest, hr, branch_exit_iff r (fun _ => Reply.unit)]
    | Delete path =>
      rcases hr : resolveOutcome conn o.delete with ⟨conn', r⟩
      simp [handleRequest, hr, branch_exit_iff r (fun _ => Reply.unit)]
    | Rename oldPath newPath =>
      rcases hr : resolveOutcome conn o.rename with ⟨conn', r⟩
      simp [handleRequest, hr, branch_exit_iff r (fun _ => Reply.unit)]
    | CreatePty terminalId workingDir =>
      cases hp : o.createPty with
      | timedOut =>
        simp [handleRequest, hp,
          branch_exit_iff (Except.error (SshError.ChannelError "PTY request timed out"))
            (fun _ => Reply.pty terminalId)]
      | completed r =>
        simp [handleRequest, hp, branch_exit_iff r (fun _ => Reply.pty terminalId)]
    | Disconnect =>
      cases hd : o.disconnectDetail with
      | none => simp [handleRequest, hd]
      | some d => simp [handleRequest, hd]
  · cases req with
    | ListDir path =>
      rcases hc : DirectoryCache.get cache (normalizeDirPath path) now with ⟨hit, cc⟩
      cases hit with
      | some cached => simp [handleRequest, hc]
      | none =>
        rcases hr : resolveOutcome conn o.listDir with ⟨conn', r⟩
        simp [handleRequest, hc, hr]
    | GetHomeDir =>
      rcases hr : resolveOutcome conn o.getHomeDir with ⟨conn', r⟩
      simp [handleRequest, hr]
    | ReadFileWithStat path =>
      rcases hr : resolveOutcome conn o.readFileWithStat with ⟨conn', r⟩
      simp [handleRequest, hr]
    | ReadFile path =>
      rcases hr : resolveOutcome conn o.readFile with ⟨conn', r⟩
      simp [handleRequest, hr]
    | WriteFile path content =>
      rcases hr : resolveOutcome conn o.writeFile with ⟨conn', r⟩
      simp [handleRequest, hr]
    | Stat path =>
      rcases hr : resolveOutcome conn o.stat with ⟨conn', r⟩
      simp [handleRequest, hr]
    | CreateFile path =>
      rcases hr : resolveOutcome conn o.createFile with ⟨conn', r⟩
      simp [handleRequest, hr]
    | CreateDir path =>
      rcases hr : resolveOutcome conn o.createDir with ⟨conn', r⟩
      simp [handleRequest, hr]
    | Delete path =>
      rcases hr : resolveOutcome conn o.delete with ⟨conn', r⟩
      simp [handleRequest, hr]
    | Rename oldPath newPath =>
      rcases hr : resolveOutcome conn o.rename with ⟨conn', r⟩
      simp [handleRequest, hr]
    | CreatePty terminalId workingDir =>
      cases hp : o.createPty with
      | timedOut => simp [handleRequest, hp]
      | completed r => simp [handleRequest, hp]
    | Disconnect =>
      cases hd : o.disconnectDetail with
      | none => simp [handleRequest, hd]
      | some d => simp [handleRequest, hd]

/-- C6: after a successful `WriteFile`, `CreateFile`, `CreateDir`,
`Delete`, or `Rename`, the directory cache holds no entry for the
parent directory of the affected path (for `Rename`, the parents of
both paths; for `Delete`, additionally the normalized path itself), and
every other cache slot is unchanged. -/
theorem mutation_invalidates_parent (conn : ConnSftp) (cache : DirectoryCache)
    (now : Nat) (o : ActorOracles)
    (path oldPath newPath content q : String) :
    (o.writeFile = .completed (.ok ()) →
      (handleRequest conn cache now (.WriteFile path content) o).cache.entries.lookup q =
        if parentDir path = some q then none else cache.entries.lookup q) ∧
    (o.createFile = .completed (.ok ()) →
      (handleRequest conn cache now (.CreateFile path) o).cache.entries.lookup q =
        if parentDir path = some q then none else cache.entries.lookup q) ∧
    (o.createDir = .completed (.ok ()) →
      (handleRequest conn cache now (.CreateDir path) o).cache.entries.lookup q =
        if parentDir path = some q then none else cache.entries.lookup q) ∧
    (o.delete = .completed (.ok ()) →
      (handleRequest conn cache now (.Delete path) o).cache.entries.lookup q =
        if parentDir path = some q ∨ q = normalizeDirPath path then none
        else cache.entries.lookup q) ∧
    (o.rename = .completed (.ok ()) →
      (handleRequest conn cache now (.Rename oldPath newPath) o).cache.entries.lookup q =
        if parentDir oldPath = some q ∨ parentDir newPath = some q then none
        else cache.entries.lookup q) := by
  refine ⟨?_, ?_, ?_, ?_, ?_⟩
  · intro h
    simp only [handleRequest, h, resolveOutcome]
    rw [DirectoryCache.invalidateParentOfPath_lookup]
  · intro h
    simp only [handleRequest, h, resolveOutcome]
    rw [DirectoryCache.invalidateParentOfPath_lookup]
  · intro h
    simp only [handleRequest, h, resolveOutcome]
    rw [DirectoryCache.invalidateParentOfPath_lookup]
  · intro h
    simp only [handleRequest, h, resolveOutcome]
    rw [DirectoryCache.invalidatePathAndParent_lookup]
  · intro h
    simp only [handleRequest, h, resolveOutcome]
    rw [DirectoryCache.invalidateParentOfPath_lookup,
      DirectoryCache.invalidateParentOfPath_lookup]
    by_cases h1 : parentDir newPath = some q <;>
      by_cases h2 : parentDir oldPath = some q <;> simp [h1, h2]

/-- Witness for `mutation_invalidates_parent`: deleting `/a/b` empties
the cache slots `/a` (its parent) and `/a/b` and leaves slot `/c`
untouched. -/
theorem mutation_invalidates_parent_witness :
    (handleRequest ⟨none, 0⟩
      ⟨10, 128, [("/a", 0, []), ("/a/b", 0, []), ("/c", 0, [])]⟩ 5
      (.Delete "/a/b")
      ⟨.timedOut, .timedOut, .timedOut, .timedOut, .timedOut, .timedOut,
        .timedOut, .timedOut, .completed (.ok ()), .timedOut, .timedOut,
        none⟩).cache.entries.lookup "/a" = none ∧
    (handleRequest ⟨none, 0⟩
      ⟨10, 128, [("/a", 0, []), ("/a/b", 0, []), ("/c", 0, [])]⟩ 5
      (.Delete "/a/b")
      ⟨.timedOut, .timedOut, .timedOut, .timedOut, .timedOut, .timedOut,
        .timedOut, .timedOut, .completed (.ok ()), .timedOut, .timedOut,
        none⟩).cache.entries.lookup "/a/b" = none ∧
    (handleRequest ⟨none, 0⟩
      ⟨10, 128, [("/a", 0, []), ("/a/b", 0, []), ("/c", 0, [])]⟩ 5
      (.Delete "/a/b")
      ⟨.timedOut, .timedOut, .timedOut, .timedOut, .timedOut, .timedOut,
        .timedOut, .timedOut, .completed (.ok ()), .timedOut, .timedOut,
        none⟩).cache.entries.lookup "/c" = some (0, []) := by
  have h := (mutation_invalidates_parent ⟨none, 0⟩
    ⟨10, 128, [("/a", 0, []), ("/a/b", 0, []), ("/c", 0, [])]⟩ 5
    ⟨.timedOut, .timedOut, .timedOut, .timedOut, .timedOut, .timedOut,
      .timedOut, .timedOut, .completed (.ok ()), .timedOut, .timedOut, none⟩
    "/a/b" "" "" "" "/a").2.2.2.1 rfl
  have h2 := (mutation_invalidates_parent ⟨none, 0⟩
    ⟨10, 128, [("/a", 0, []), ("/a/b", 0, []), ("/c", 0, [])]⟩ 5
    ⟨.timedOut, .timedOut, .timedOut, .timedOut, .timedOut, .timedOut,
      .timedOut, .timedOut, .completed (.ok ()), .timedOut, .timedOut, none⟩
    "/a/b" "" "" "" "/a/b").2.2.2.1 rfl
  have h3 := (mutation_invalidates_parent ⟨none, 0⟩
    ⟨10, 128, [("/a", 0, []), ("/a/b", 0, []), ("/c", 0, [])]⟩ 5
    ⟨.timedOut, .timedOut, .timedOut, .timedOut, .timedOut, .timedOut,
      .timedOut, .timedOut, .completed (.ok ()), .timedOut, .timedOut, none⟩
    "/a/b" "" "" "" "/c").2.2.2.1 rfl
  rw [h, h2, h3]
  refine ⟨by decide, by decide, by decide⟩

/-- C7: a `ListDir` request whose normalized path has a cache entry
with `now − createdAt ≤ 10 s` is answered from the cache — the cached
vector is returned, no SFTP call is made, and connection and cache are
untouched; `"/a/"` and `"/a"` normalize to the same cache key and
`"/"` normalizes to `"/"`. -/
theorem listdir_cache_hit (conn : ConnSftp) (cache : DirectoryCache)
    (now createdAt : Nat) (o : ActorOracles) (path : String)
    (es : List SftpEntry)
    (httl : cache.ttl = DIR_CACHE_TTL)
    (hl : cache.entries.lookup (normalizeDirPath path) = some (createdAt, es))
    (hfresh : now - createdAt ≤ 10) :
    (handleRequest conn cache now (.ListDir path) o).reply = .ok (.entries es) ∧
    (handleRequest conn cache now (.ListDir path) o).sftpCalls = 0 ∧
    (handleRequest conn cache now (.ListDir path) o).cache = cache ∧
    (handleRequest conn cache now (.ListDir path) o).conn = conn ∧
    (handleRequest conn cache now (.ListDir path) o).exits = false ∧
    normalizeDirPath "/a/" = normalizeDirPath "/a" ∧
    normalizeDirPath "/" = "/" := by
  have hget : DirectoryCache.get cache (normalizeDirPath path) now = (some es, cache) := by
    have hle : now - createdAt ≤ cache.ttl := by
      rw [httl]
      exact hfresh
    unfold DirectoryCache.get
    rw [hl]
    simp [hle]
  refine ⟨?_, ?_, ?_, ?_, ?_, by decide, by decide⟩ <;>
    simp [handleRequest, hget]

/-- Witness for `listdir_cache_hit`: a cache holding `"/a"` (written 3
seconds ago) answers `ListDir "/a/"` without touching the network. -/
theorem listdir_cache_hit_witness :
    (handleRequest ⟨some 0, 1⟩ ⟨10, 128, [("/a", 2, [])]⟩ 5 (.ListDir "/a/")
      ⟨.timedOut, .timedOut, .timedOut, .timedOut, .timedOut, .timedOut,
        .timedOut, .timedOut, .timedOut, .timedOut, .timedOut, none⟩).reply =
      .ok (.entries []) ∧
    (handleRequest ⟨some 0, 1⟩ ⟨10, 128, [("/a", 2, [])]⟩ 5 (.ListDir "/a/")
      ⟨.timedOut, .timedOut, .timedOut, .timedOut, .timedOut, .timedOut,
        .timedOut, .timedOut, .timedOut, .timedOut, .timedOut, none⟩).sftpCalls = 0 := by
  have h := listdir_cache_hit ⟨some 0, 1⟩ ⟨10, 128, [("/a", 2, [])]⟩ 5 2
    ⟨.timedOut, .timedOut, .timedOut, .timedOut, .timedOut, .timedOut,
      .timedOut, .timedOut, .timedOut, .timedOut, .timedOut, none⟩
    "/a/" [] rfl (by decide) (by decide)
  exact ⟨h.1, h.2.1⟩

/-- An attempt oracle for which address 0 presents an untrusted host
key and address 1 handshakes successfully. -/
def c1Outcomes : Nat → Nat → AttemptOutcome := fun addr _ =>
  if addr = 0 then .hostKeyUntrusted "ssh-ed25519" "SHA256:AAA" "pk"
  else .handshakeOk

/-- C1, counterexample: a host-key error breaks only the inner retry
loop.  With two resolved addresses where address 0 fails with
`HostKeyUntrusted`, `connect` goes on to attempt a handshake at address
1 — attempt `(1, 0)` is performed — and the final result is the
successful handle from address 1, not the host-key error.  This refutes
"no further handshake attempt is made … on any later resolved address"
and "returns that host-key error as the final result". -/
theorem hostkey_error_not_final_cex :
    (innerLoop c1Outcomes "example.test" 22 0 none).lastError =
      some (.HostKeyUntrusted "example.test" 22 "ssh-ed25519" "SHA256:AAA" "pk") ∧
    (sshConnect c1Outcomes "example.test" 22 2).result = .ok () ∧
    (sshConnect c1Outcomes "example.test" 22 2).attempts = [(0, 0), (1, 0)] := by
  refine ⟨rfl, rfl, rfl⟩

theorem innerLoop_fail_indep (f : Nat → Nat → AttemptOutcome) (host : String)
    (port : Nat) (addr : Nat) (le le' : Option SshError)
    (h : (innerLoop f host port addr le).success = false) :
    innerLoop f host port addr le = innerLoop f host port addr le' := by
  unfold innerLoop at h ⊢
  cases h0 : f addr 0 <;> simp [h0] at h ⊢

theorem outerLoop_all_fail (f : Nat → Nat → AttemptOutcome) (host : String)
    (port : Nat) (k : Nat) :
    ∀ (L : List Nat) (le : Option SshError),
      (∀ j ∈ L, (innerLoop f host port j none).success = false) →
      (innerLoop f host port k none).success = false →
      (outerLoop f host port (L ++ [k]) le).1 = false ∧
      (outerLoop f host port (L ++ [k]) le).2.1 =
        (innerLoop f host port k none).lastError := by
  intro L
  induction L with
  | nil =>
    intro le _ hk
    have hkle : innerLoop f host port k le = innerLoop f host port k none :=
      (innerLoop_fail_indep f host port k none le hk).symm
    simp [outerLoop, hkle, hk]
  | cons x L' ih =>
    intro le hfail hk
    have hx : (innerLoop f host port x none).success = false :=
      hfail x (List.mem_cons_self x L')
    have hxle : innerLoop f host port x le = innerLoop f host port x none :=
      (innerLoop_fail_indep f host port x none le hx).symm
    have ihh := ih ((innerLoop f host port x none).lastError)
      (fun j hj => hfail j (List.mem_cons_of_mem x hj)) hk
    rcases ho : outerLoop f host port (L' ++ [k])
        ((innerLoop f host port x none).lastError) with ⟨s, le2, atts⟩
    rw [ho] at ihh
    simp only [List.cons_append, outerLoop, hxle, hx, List.append_eq,
      Bool.false_eq_true, if_false]
    rw [ho]
    simpa using ihh

/-- C1, amended: a host-key failure (`HostKeyUntrusted` or
`HostKeyMismatch`) during the handshake at an address ends the attempts
on that address without a retry (only attempt 0 runs there, and the
inner loop exits carrying that error), but `connect` proceeds to the
remaining resolved addresses; the host-key error is the final result of
`connect` when it arises at the last resolved address (no later attempt
overrides it). -/
theorem hostkey_error_no_retry_and_final_on_last
    (f : Nat → Nat → AttemptOutcome) (host : String) (port : Nat) :
    (∀ addr le e, hostKeyError host port (f addr 0) = some e →
      innerLoop f host port addr le = ⟨false, some e, [(addr, 0)]⟩) ∧
    (∀ n e, 0 < n → hostKeyError host port (f (n - 1) 0) = some e →
      (∀ j, j + 1 < n → (innerLoop f host port j none).success = false) →
      (sshConnect f host port n).result = .error e) := by
  have part1 : ∀ addr le e, hostKeyError host port (f addr 0) = some e →
      innerLoop f host port addr le = ⟨false, some e, [(addr, 0)]⟩ := by
    intro addr le e he
    cases h0 : f addr 0 <;>
      simp only [hostKeyError, h0, Option.some.injEq, reduceCtorEq] at he <;>
      subst he <;>
      simp [innerLoop, h0, attemptError]
  refine ⟨part1, ?_⟩
  intro n e hn he hfail
  obtain ⟨m, rfl⟩ : ∃ m, n = m + 1 := ⟨n - 1, (Nat.succ_pred_eq_of_pos hn).symm⟩
  have hm : m + 1 - 1 = m := rfl
  rw [hm] at he
  have hinner := part1 m none e he
  have hksucc : (innerLoop f host port m none).success = false := by
    rw [hinner]
  have hall := outerLoop_all_fail f host port m (List.range m) none
    (fun j hj => hfail j (by
      have := List.mem_range.mp hj
      omega)) hksucc
  rw [← List.range_succ] at hall
  rcases ho : outerLoop f host port (List.range (m + 1)) none with ⟨s, le2, atts⟩
  rw [ho] at hall
  simp only at hall
  obtain ⟨hs, hle2⟩ := hall
  rw [hinner] at hle2
  simp only [sshConnect]
  rw [if_neg (by omega)]
  rw [ho]
  subst hs
  simp [hle2]

/-- Witness for `hostkey_error_no_retry_and_final_on_last`: a single
resolved address presenting an untrusted key — only attempt `(0, 0)`
runs and the untrusted-host-key error is the final result. -/
theorem hostkey_error_no_retry_and_final_on_last_witness :
    innerLoop (fun _ _ => .hostKeyUntrusted "kt" "fp" "pk") "h" 22 0 none =
      ⟨false, some (.HostKeyUntrusted "h" 22 "kt" "fp" "pk"), [(0, 0)]⟩ ∧
    (sshConnect (fun _ _ => .hostKeyUntrusted "kt" "fp" "pk") "h" 22 1).result =
      .error (.HostKeyUntrusted "h" 22 "kt" "fp" "pk") := by
  have h := hostkey_error_no_retry_and_final_on_last
    (fun _ _ => .hostKeyUntrusted "kt" "fp" "pk") "h" 22
  exact ⟨h.1 0 none _ rfl,
    h.2 1 _ (by decide) rfl (fun j hj => absurd hj (by omega))⟩

theorem addrLe_trans : ∀ a b c : ResolvedAddr,
    decide (addrSortKey a ≤ addrSortKey b) →
    decide (addrSortKey b ≤ addrSortKey c) →
    decide (addrSortKey a ≤ addrSortKey c) := by
  intro a b c hab hbc
  simp only [decide_eq_true_eq] at hab hbc ⊢
  omega

theorem addrLe_total : ∀ a b : ResolvedAddr,
    (decide (addrSortKey a ≤ addrSortKey b) ||
     decide (addrSortKey b ≤ addrSortKey a)) = true := by
  intro a b
  simp only [Bool.or_eq_true, decide_eq_true_eq]
  omega

theorem pairwise_of_all_v4 (xs : List ResolvedAddr)
    (h : ∀ a ∈ xs, a.isV4 = true) :
    xs.Pairwise (fun a b => decide (addrSortKey a ≤ addrSortKey b) = true) := by
  induction xs with
  | nil => exact List.Pairwise.nil
  | cons x t ih =>
    refine List.Pairwise.cons ?_ (ih fun a ha => h a (List.mem_cons_of_mem x ha))
    intro b _
    have hx := h x (List.mem_cons_self x t)
    cases x with
    | V4 a => simp [addrSortKey]
    | V6 a => simp [ResolvedAddr.isV4] at hx

theorem pairwise_of_all_v6 (xs : List ResolvedAddr)
    (h : ∀ a ∈ xs, a.isV4 = false) :
    xs.Pairwise (fun a b => decide (addrSortKey a ≤ addrSortKey b) = true) := by
  induction xs with
  | nil => exact List.Pairwise.nil
  | cons x t ih =>
    refine List.Pairwise.cons ?_ (ih fun a ha => h a (List.mem_cons_of_mem x ha))
    intro b hb
    have hb' := h b (List.mem_cons_of_mem x hb)
    cases b with
    | V4 a => simp [ResolvedAddr.isV4] at hb'
    | V6 a => cases x <;> simp [addrSortKey]

theorem sorted_partition (r : List ResolvedAddr)
    (h : r.Pairwise (fun a b => decide (addrSortKey a ≤ addrSortKey b) = true)) :
    r = r.filter ResolvedAddr.isV4 ++ r.filter (fun a => !a.isV4) := by
  induction r with
  | nil => rfl
  | cons x t ih =>
    have htail := ih (List.Pairwise.sublist (List.sublist_cons_self x t) h)
    cases hx : x.isV4 with
    | true =>
      simp only [List.filter_cons, hx, Bool.not_true, List.cons_append]
      exact congrArg (x :: ·) htail
    | false =>
      have hall : ∀ b ∈ t, b.isV4 = false := by
        intro b hb
        have hle := (List.pairwise_cons.mp h).1 b hb
        simp only [decide_eq_true_eq] at hle
        cases x with
        | V4 a => simp [ResolvedAddr.isV4] at hx
        | V6 a =>
          cases b with
          | V4 a' => simp [addrSortKey] at hle
          | V6 a' => rfl
      have hv4 : t.filter ResolvedAddr.isV4 = [] := by
        rw [List.filter_eq_nil_iff]
        intro b hb
        simp [hall b hb]
      have hv6 : t.filter (fun a => !a.isV4) = t := by
        rw [List.filter_eq_self]
        intro b hb
        simp [hall b hb]
      simp [List.filter_cons, hx, hv4, hv6]

theorem filter_mergeSort_of_all (l : List ResolvedAddr) (p : ResolvedAddr → Bool)
    (hp : (l.filter p).Pairwise
      (fun a b => decide (addrSortKey a ≤ addrSortKey b) = true)) :
    (sortResolvedAddrs l).filter p = l.filter p := by
  have hsub : List.Sublist (l.filter p) (sortResolvedAddrs l) :=
    List.sublist_mergeSort addrLe_trans addrLe_total hp (List.filter_sublist l)
  have hsub2 : List.Sublist ((l.filter p).filter p)
      ((sortResolvedAddrs l).filter p) :=
    hsub.filter p
  rw [List.filter_filter] at hsub2
  have hidem : l.filter (fun a => p a && p a) = l.filter p := by
    simp
  rw [hidem] at hsub2
  have hperm : List.Perm ((sortResolvedAddrs l).filter p) (l.filter p) :=
    (List.mergeSort_perm l _).filter p
  exact (hsub2.eq_of_length hperm.length_eq.symm).symm

/-- C8: `SshConnection::connect` traverses the resolved addresses in
the order produced by the stable IPv4-first sort: every IPv4 address
precedes every IPv6 address, and the original relative order within
each family is preserved — the traversal order is exactly the IPv4
entries in original order followed by the IPv6 entries in original
order. -/
theorem resolved_addrs_ipv4_first (l : List ResolvedAddr) :
    sortResolvedAddrs l =
      l.filter ResolvedAddr.isV4 ++ l.filter (fun a => !a.isV4) := by
  have hsorted : (sortResolvedAddrs l).Pairwise
      (fun a b => decide (addrSortKey a ≤ addrSortKey b) = true) :=
    List.sorted_mergeSort addrLe_trans addrLe_total l
  have hpart := sorted_partition (sortResolvedAddrs l) hsorted
  have hv4 : (sortResolvedAddrs l).filter ResolvedAddr.isV4 =
      l.filter ResolvedAddr.isV4 :=
    filter_mergeSort_of_all l ResolvedAddr.isV4
      (pairwise_of_all_v4 _ fun a ha => (List.mem_filter.mp ha).2)
  have hv6 : (sortResolvedAddrs l).filter (fun a => !a.isV4) =
      l.filter (fun a => !a.isV4) :=
    filter_mergeSort_of_all l (fun a => !a.isV4)
      (pairwise_of_all_v6 _ fun a ha => by
        have := (List.mem_filter.mp ha).2
        simpa using this)
  rw [hpart, hv4, hv6]

end DriftCoder
